import Mathlib

/-!
Shallow embedding of the idf-gpio component (inc/Gpio.hpp, src/Gpio.cpp).

The component wraps the vendor GPIO driver behind validated value types
(GPIONum, GPIODriveStrength, GPIOPullMode, GPIOWakeupIntrType) and three
pin configuration classes (PinOutput, PinInput, PinOutputInput).

Modelling choices:
- esp_err_t is a natural number status code (ESP_OK = 0, ESP_ERR_INVALID_ARG = 0x102).
- The per-target data (GPIO_NUM_MAX, INVALID_GPIOS, GPIO_DRIVE_CAP_MAX) is a
  Platform record, since the source selects it by conditional compilation.
- Throwing constructors become Except-returning functions.
- The vendor driver is an oracle (Driver) assigning a status to every driver
  call, a level to every pin (gpio_get_level) and a drive capability readback
  value to every pin (gpio_get_drive_capability's out parameter).
- Every fallible operation returns its result together with the ordered list
  of driver calls it issued (its trace), so that call order and absence of
  side effects are provable.
-/

namespace IdfGpio

/-- Status code type esp_err_t of the vendor SDK. -/
abbrev esp_err_t := Nat

/-- Success status. -/
def ESP_OK : esp_err_t := 0

/-- Invalid-argument error status. -/
def ESP_ERR_INVALID_ARG : esp_err_t := 0x102

/-- Exception type GPIOException; it carries the underlying esp_err_t. -/
structure GPIOException where
  error : esp_err_t
deriving DecidableEq

/-- Hardware variant table: the per-target constants consulted by the
validators. In the source GPIO_NUM_MAX and GPIO_DRIVE_CAP_MAX come from the
vendor headers and INVALID_GPIOS is selected by CONFIG_IDF_TARGET branches. -/
structure Platform where
  GPIO_NUM_MAX : Nat
  INVALID_GPIOS : List Nat
  GPIO_DRIVE_CAP_MAX : Nat
deriving DecidableEq

/-- Check that a numeric pin number is valid on the current hardware
(src/Gpio.cpp isValidPin): reject numbers at or above GPIO_NUM_MAX and
members of INVALID_GPIOS, otherwise return ESP_OK. -/
def isValidPin (P : Platform) (pin_num : Nat) : esp_err_t :=
  if P.GPIO_NUM_MAX ≤ pin_num then ESP_ERR_INVALID_ARG
  else if pin_num ∈ P.INVALID_GPIOS then ESP_ERR_INVALID_ARG
  else ESP_OK

/-- Check that a numeric drive strength is valid on the current hardware
(src/Gpio.cpp isValidDriveStrengthPin). -/
def isValidDriveStrengthPin (P : Platform) (strength : Nat) : esp_err_t :=
  if P.GPIO_DRIVE_CAP_MAX ≤ strength then ESP_ERR_INVALID_ARG
  else ESP_OK

/-- Pull mode code GPIO_FLOATING of the vendor header gpio_pull_mode_t. -/
def GPIO_FLOATING : Nat := 3

/-- Pull mode code GPIO_PULLUP_ONLY of the vendor header gpio_pull_mode_t. -/
def GPIO_PULLUP_ONLY : Nat := 0

/-- Pull mode code GPIO_PULLDOWN_ONLY of the vendor header gpio_pull_mode_t. -/
def GPIO_PULLDOWN_ONLY : Nat := 1

/-- Interrupt type code GPIO_INTR_LOW_LEVEL of the vendor header gpio_int_type_t. -/
def GPIO_INTR_LOW_LEVEL : Nat := 4

/-- Interrupt type code GPIO_INTR_HIGH_LEVEL of the vendor header gpio_int_type_t. -/
def GPIO_INTR_HIGH_LEVEL : Nat := 5

/-- Drive capability code GPIO_DRIVE_CAP_0 of the vendor header gpio_drive_cap_t. -/
def GPIO_DRIVE_CAP_0 : Nat := 0

/-- Drive capability code GPIO_DRIVE_CAP_1 of the vendor header gpio_drive_cap_t. -/
def GPIO_DRIVE_CAP_1 : Nat := 1

/-- Drive capability code GPIO_DRIVE_CAP_2 of the vendor header gpio_drive_cap_t. -/
def GPIO_DRIVE_CAP_2 : Nat := 2

/-- Drive capability code GPIO_DRIVE_CAP_3 of the vendor header gpio_drive_cap_t. -/
def GPIO_DRIVE_CAP_3 : Nat := 3

/-- Strong value type GPIONum (the GPIONumBase instantiation): it wraps the
pin number accepted at construction. -/
structure GPIONum where
  val : Nat
deriving DecidableEq

/-- Validating constructor GPIONumBase(uint32_t pin): throws GPIOException
with the status returned by isValidPin when that status is not ESP_OK,
otherwise the instance stores the pin unchanged. -/
def GPIONum.make (P : Platform) (pin : Nat) : Except GPIOException GPIONum :=
  let pin_check_result := isValidPin P pin
  if pin_check_result ≠ ESP_OK then .error ⟨pin_check_result⟩
  else .ok ⟨pin⟩

/-- Strong value type GPIODriveStrength: wraps the strength code accepted at
construction. -/
structure GPIODriveStrength where
  val : Nat
deriving DecidableEq

/-- Validating constructor GPIODriveStrength(uint32_t strength). -/
def GPIODriveStrength.make (P : Platform) (strength : Nat) :
    Except GPIOException GPIODriveStrength :=
  let strength_check_result := isValidDriveStrengthPin P strength
  if strength_check_result ≠ ESP_OK then .error ⟨strength_check_result⟩
  else .ok ⟨strength⟩

/-- Factory GPIODriveStrength::WEAK(): invokes the validating constructor on
GPIO_DRIVE_CAP_0. -/
def GPIODriveStrength.WEAK (P : Platform) : Except GPIOException GPIODriveStrength :=
  GPIODriveStrength.make P GPIO_DRIVE_CAP_0

/-- Factory GPIODriveStrength::LESS_WEAK(). -/
def GPIODriveStrength.LESS_WEAK (P : Platform) : Except GPIOException GPIODriveStrength :=
  GPIODriveStrength.make P GPIO_DRIVE_CAP_1

/-- Factory GPIODriveStrength::MEDIUM(). -/
def GPIODriveStrength.MEDIUM (P : Platform) : Except GPIOException GPIODriveStrength :=
  GPIODriveStrength.make P GPIO_DRIVE_CAP_2

/-- Factory GPIODriveStrength::STRONGEST(). -/
def GPIODriveStrength.STRONGEST (P : Platform) : Except GPIOException GPIODriveStrength :=
  GPIODriveStrength.make P GPIO_DRIVE_CAP_3

/-- Factory GPIODriveStrength::DEFAULT(): defined in the source as MEDIUM(). -/
def GPIODriveStrength.DEFAULT (P : Platform) : Except GPIOException GPIODriveStrength :=
  GPIODriveStrength.MEDIUM P

/-- Closed enumeration GPIOPullMode: its constructor is private in the source,
so instances arise only from the three static factories; we model the closed
set as an inductive whose code mapping get_value matches the factories. -/
inductive GPIOPullMode
  | FLOATING
  | PULLUP
  | PULLDOWN
deriving DecidableEq

/-- Underlying code stored by each GPIOPullMode factory (StrongValueComparable
equality compares these codes). -/
def GPIOPullMode.get_value : GPIOPullMode → Nat
  | .FLOATING => GPIO_FLOATING
  | .PULLUP => GPIO_PULLUP_ONLY
  | .PULLDOWN => GPIO_PULLDOWN_ONLY

/-- Closed enumeration GPIOWakeupIntrType with private constructor and two
static factories. -/
inductive GPIOWakeupIntrType
  | LOW_LEVEL
  | HIGH_LEVEL
deriving DecidableEq

/-- Underlying code stored by each GPIOWakeupIntrType factory. -/
def GPIOWakeupIntrType.get_value : GPIOWakeupIntrType → Nat
  | .LOW_LEVEL => GPIO_INTR_LOW_LEVEL
  | .HIGH_LEVEL => GPIO_INTR_HIGH_LEVEL

/-- Level of an input GPIO (enum class GPIOLevel). -/
inductive GPIOLevel
  | HIGH
  | LOW
deriving DecidableEq

/-- Direction modes passed to gpio_set_direction by this component. -/
inductive gpio_mode_t
  | GPIO_MODE_INPUT
  | GPIO_MODE_OUTPUT
  | GPIO_MODE_INPUT_OUTPUT_OD
deriving DecidableEq

/-- One call into the vendor driver surface, with its arguments.
gpio_get_level is not listed: it returns a level, not a status, and the
source never checks it for failure. -/
inductive DriverCall
  | gpio_reset_pin (pin : Nat)
  | gpio_set_direction (pin : Nat) (mode : gpio_mode_t)
  | gpio_set_level (pin : Nat) (level : Nat)
  | gpio_set_pull_mode (pin : Nat) (mode : Nat)
  | gpio_get_drive_capability (pin : Nat)
  | gpio_set_drive_capability (pin : Nat) (strength : Nat)
  | gpio_wakeup_enable (pin : Nat) (intr_type : Nat)
  | gpio_wakeup_disable (pin : Nat)
  | gpio_hold_en (pin : Nat)
  | gpio_hold_dis (pin : Nat)
deriving DecidableEq

/-- Oracle model of the vendor driver: a status for every call, the level
read back by gpio_get_level, and the capability code written to the out
parameter of gpio_get_drive_capability. -/
structure Driver where
  status : DriverCall → esp_err_t
  get_level : Nat → Int
  drive_cap : Nat → Nat

/-- The GPIO_CHECK_THROW macro around one driver call: issue the call and
throw a GPIOException carrying the status when it is not ESP_OK. -/
def checkThrow (D : Driver) (c : DriverCall) :
    Except GPIOException Unit × List DriverCall :=
  let s := D.status c
  if s ≠ ESP_OK then (.error ⟨s⟩, [c]) else (.ok (), [c])

/-- Base class GPIO of the source: owns the configured pin number. -/
structure GPIOBase where
  gpio_num : GPIONum
deriving DecidableEq

/-- Base constructor GPIO::GPIO(GPIONum): resets the pin and leaves direction
configuration to the subclass. -/
def GPIOBase.construct (D : Driver) (num : GPIONum) :
    Except GPIOException GPIOBase × List DriverCall :=
  let c := DriverCall.gpio_reset_pin num.val
  let s := D.status c
  if s ≠ ESP_OK then (.error ⟨s⟩, [c]) else (.ok ⟨num⟩, [c])

/-- A GPIO configured as output. -/
structure PinOutput extends GPIOBase
deriving DecidableEq

/-- Constructor PinOutput::PinOutput(GPIONum): the base reset, then
gpio_set_direction with GPIO_MODE_OUTPUT. -/
def PinOutput.construct (D : Driver) (num : GPIONum) :
    Except GPIOException PinOutput × List DriverCall :=
  match GPIOBase.construct D num with
  | (.error e, t) => (.error e, t)
  | (.ok base, t) =>
      let c := DriverCall.gpio_set_direction base.gpio_num.val gpio_mode_t.GPIO_MODE_OUTPUT
      let s := D.status c
      if s ≠ ESP_OK then (.error ⟨s⟩, t ++ [c]) else (.ok ⟨base⟩, t ++ [c])

/-- A GPIO configured as input. -/
structure PinInput extends GPIOBase
deriving DecidableEq

/-- Constructor PinInput::PinInput(GPIONum): the base reset, then
gpio_set_direction with GPIO_MODE_INPUT. -/
def PinInput.construct (D : Driver) (num : GPIONum) :
    Except GPIOException PinInput × List DriverCall :=
  match GPIOBase.construct D num with
  | (.error e, t) => (.error e, t)
  | (.ok base, t) =>
      let c := DriverCall.gpio_set_direction base.gpio_num.val gpio_mode_t.GPIO_MODE_INPUT
      let s := D.status c
      if s ≠ ESP_OK then (.error ⟨s⟩, t ++ [c]) else (.ok ⟨base⟩, t ++ [c])

/-- A GPIO configured as open drain output and input at the same time. -/
structure PinOutputInput extends PinInput
deriving DecidableEq

/-- Constructor PinOutputInput::PinOutputInput(GPIONum): runs the PinInput
constructor, then gpio_set_direction with GPIO_MODE_INPUT_OUTPUT_OD. -/
def PinOutputInput.construct (D : Driver) (num : GPIONum) :
    Except GPIOException PinOutputInput × List DriverCall :=
  match PinInput.construct D num with
  | (.error e, t) => (.error e, t)
  | (.ok parent, t) =>
      let c := DriverCall.gpio_set_direction parent.gpio_num.val gpio_mode_t.GPIO_MODE_INPUT_OUTPUT_OD
      let s := D.status c
      if s ≠ ESP_OK then (.error ⟨s⟩, t ++ [c]) else (.ok ⟨parent⟩, t ++ [c])

/-- Construction of a PinOutput from a raw pin number p: the caller first
builds GPIONum(p), whose validation issues no driver call, and only a valid
pin number reaches the configuration constructor. -/
def PinOutput.constructRaw (P : Platform) (D : Driver) (p : Nat) :
    Except GPIOException PinOutput × List DriverCall :=
  match GPIONum.make P p with
  | .error e => (.error e, [])
  | .ok num => PinOutput.construct D num

/-- Construction of a PinInput from a raw pin number. -/
def PinInput.constructRaw (P : Platform) (D : Driver) (p : Nat) :
    Except GPIOException PinInput × List DriverCall :=
  match GPIONum.make P p with
  | .error e => (.error e, [])
  | .ok num => PinInput.construct D num

/-- Construction of a PinOutputInput from a raw pin number. -/
def PinOutputInput.constructRaw (P : Platform) (D : Driver) (p : Nat) :
    Except GPIOException PinOutputInput × List DriverCall :=
  match GPIONum.make P p with
  | .error e => (.error e, [])
  | .ok num => PinOutputInput.construct D num

/-- Method PinOutput::setHigh(): gpio_set_level with 1 under GPIO_CHECK_THROW. -/
def PinOutput.setHigh (D : Driver) (o : PinOutput) :
    Except GPIOException Unit × List DriverCall :=
  checkThrow D (DriverCall.gpio_set_level o.gpio_num.val 1)

/-- Method PinOutput::setLow(): gpio_set_level with 0. -/
def PinOutput.setLow (D : Driver) (o : PinOutput) :
    Except GPIOException Unit × List DriverCall :=
  checkThrow D (DriverCall.gpio_set_level o.gpio_num.val 0)

/-- Method PinOutputInput::setFloating(): gpio_set_level with 1. -/
def PinOutputInput.setFloating (D : Driver) (o : PinOutputInput) :
    Except GPIOException Unit × List DriverCall :=
  checkThrow D (DriverCall.gpio_set_level o.gpio_num.val 1)

/-- Method PinOutputInput::setLow(): gpio_set_level with 0. -/
def PinOutputInput.setLow (D : Driver) (o : PinOutputInput) :
    Except GPIOException Unit × List DriverCall :=
  checkThrow D (DriverCall.gpio_set_level o.gpio_num.val 0)

/-- Method PinInput::getLevel() const noexcept: reads gpio_get_level and maps
any nonzero level to HIGH and zero to LOW; it issues no status-checked call
and cannot fail. -/
def PinInput.getLevel (D : Driver) (o : PinInput) : GPIOLevel :=
  let level := D.get_level o.gpio_num.val
  if level ≠ 0 then GPIOLevel.HIGH else GPIOLevel.LOW

/-- Method PinInput::setPullMode(GPIOPullMode). -/
def PinInput.setPullMode (D : Driver) (o : PinInput) (mode : GPIOPullMode) :
    Except GPIOException Unit × List DriverCall :=
  checkThrow D (DriverCall.gpio_set_pull_mode o.gpio_num.val mode.get_value)

/-- Method PinInput::wakeupEnable(GPIOWakeupIntrType). -/
def PinInput.wakeupEnable (D : Driver) (o : PinInput) (interrupt_type : GPIOWakeupIntrType) :
    Except GPIOException Unit × List DriverCall :=
  checkThrow D (DriverCall.gpio_wakeup_enable o.gpio_num.val interrupt_type.get_value)

/-- Method PinInput::wakeupDisable(). -/
def PinInput.wakeupDisable (D : Driver) (o : PinInput) :
    Except GPIOException Unit × List DriverCall :=
  checkThrow D (DriverCall.gpio_wakeup_disable o.gpio_num.val)

/-- Method GPIO::holdEnable(). -/
def GPIOBase.holdEnable (D : Driver) (o : GPIOBase) :
    Except GPIOException Unit × List DriverCall :=
  checkThrow D (DriverCall.gpio_hold_en o.gpio_num.val)

/-- Method GPIO::holdDisable(). -/
def GPIOBase.holdDisable (D : Driver) (o : GPIOBase) :
    Except GPIOException Unit × List DriverCall :=
  checkThrow D (DriverCall.gpio_hold_dis o.gpio_num.val)

/-- Method GPIO::setDriveStrength(GPIODriveStrength). -/
def GPIOBase.setDriveStrength (D : Driver) (o : GPIOBase) (strength : GPIODriveStrength) :
    Except GPIOException Unit × List DriverCall :=
  checkThrow D (DriverCall.gpio_set_drive_capability o.gpio_num.val strength.val)

/-- Method GPIO::getDriveStrength(): reads the drive capability under
GPIO_CHECK_THROW, then wraps the read code through the validating
GPIODriveStrength constructor, which may itself throw. -/
def GPIOBase.getDriveStrength (P : Platform) (D : Driver) (o : GPIOBase) :
    Except GPIOException GPIODriveStrength × List DriverCall :=
  let c := DriverCall.gpio_get_drive_capability o.gpio_num.val
  let s := D.status c
  if s ≠ ESP_OK then (.error ⟨s⟩, [c])
  else
    match GPIODriveStrength.make P (D.drive_cap o.gpio_num.val) with
    | .error e => (.error e, [c])
    | .ok d => (.ok d, [c])

/-- The illustrative platform of the spec examples: 25 pins, reserved pin 24
(the INVALID_GPIOS table of the LINUX and ESP32 targets), maximum drive
capability code 4. -/
def illustrativePlatform : Platform := ⟨25, [24], 4⟩

/-- A driver oracle whose every call succeeds, reads level 0 and drive
capability 0; used to instantiate theorems at concrete inputs. -/
def okDriver : Driver := ⟨fun _ => ESP_OK, fun _ => 0, fun _ => 0⟩

/-- A driver oracle whose calls succeed but whose drive capability readback
is 7, outside every drive capability range used here. -/
def capDriver : Driver := ⟨fun _ => ESP_OK, fun _ => 0, fun _ => 7⟩

/-!
Theorems settling the claims. Each claim has exactly one theorem below;
theorems with hypotheses are instantiated at a concrete input by a
companion witness theorem.
-/

/-- C1: for every unsigned 32-bit p, constructing a GPIONum from p succeeds,
storing p itself, iff p is below the platform's pin count and not in the
platform's reserved set; otherwise construction fails with an
InvalidArgument GPIOException and no value is produced. -/
theorem claim_C1_pin_number_validation (P : Platform) (p : Nat) (h32 : p < 2 ^ 32) :
    ((∃ g : GPIONum, GPIONum.make P p = .ok g ∧ g.val = p) ↔
      p < P.GPIO_NUM_MAX ∧ p ∉ P.INVALID_GPIOS) ∧
    (¬(p < P.GPIO_NUM_MAX ∧ p ∉ P.INVALID_GPIOS) →
      GPIONum.make P p = .error ⟨ESP_ERR_INVALID_ARG⟩) := by
  by_cases hm : P.GPIO_NUM_MAX ≤ p
  · constructor
    · simp only [GPIONum.make, isValidPin, hm]
      simp [ESP_OK, ESP_ERR_INVALID_ARG]
      omega
    · intro _
      simp [GPIONum.make, isValidPin, hm, ESP_OK, ESP_ERR_INVALID_ARG]
  · by_cases hi : p ∈ P.INVALID_GPIOS
    · constructor
      · simp [GPIONum.make, isValidPin, hm, hi, ESP_OK, ESP_ERR_INVALID_ARG]
      · intro _
        simp [GPIONum.make, isValidPin, hm, hi, ESP_OK, ESP_ERR_INVALID_ARG]
    · constructor
      · simp [GPIONum.make, isValidPin, hm, hi, ESP_OK, ESP_ERR_INVALID_ARG]
        omega
      · intro hcon
        exact absurd ⟨by omega, hi⟩ hcon

/-- Witness for C1 at the illustrative platform and pin 3. -/
theorem claim_C1_pin_number_validation_witness :
    (∃ g : GPIONum, GPIONum.make illustrativePlatform 3 = .ok g ∧ g.val = 3) ↔
      3 < illustrativePlatform.GPIO_NUM_MAX ∧ 3 ∉ illustrativePlatform.INVALID_GPIOS :=
  (claim_C1_pin_number_validation illustrativePlatform 3 (by norm_num)).1

/-- Helper: the validating drive strength constructor accepts every code
strictly below the platform bound and stores it unchanged. -/
lemma driveStrength_make_ok (P : Platform) (s : Nat) (h : s < P.GPIO_DRIVE_CAP_MAX) :
    GPIODriveStrength.make P s = .ok ⟨s⟩ := by
  have h2 : ¬ P.GPIO_DRIVE_CAP_MAX ≤ s := Nat.not_le.mpr h
  simp [GPIODriveStrength.make, isValidDriveStrengthPin, h2]

/-- C4: for every unsigned 32-bit s, constructing a GPIODriveStrength from s
succeeds iff s is strictly below the platform's maximum drive strength code,
and fails with InvalidArgument otherwise; on the illustrative platform with
maximum code 4, construction from 4 fails while construction from 3 succeeds
and equals the STRONGEST factory value. -/
theorem claim_C4_drive_strength_validation :
    (∀ (P : Platform) (s : Nat), s < 2 ^ 32 →
      ((∃ d : GPIODriveStrength, GPIODriveStrength.make P s = .ok d ∧ d.val = s) ↔
        s < P.GPIO_DRIVE_CAP_MAX) ∧
      (P.GPIO_DRIVE_CAP_MAX ≤ s →
        GPIODriveStrength.make P s = .error ⟨ESP_ERR_INVALID_ARG⟩)) ∧
    GPIODriveStrength.make illustrativePlatform 4 = .error ⟨ESP_ERR_INVALID_ARG⟩ ∧
    GPIODriveStrength.make illustrativePlatform 3 = .ok ⟨GPIO_DRIVE_CAP_3⟩ ∧
    GPIODriveStrength.STRONGEST illustrativePlatform = .ok ⟨GPIO_DRIVE_CAP_3⟩ := by
  refine ⟨?_, rfl, rfl, rfl⟩
  intro P s _
  by_cases hs : P.GPIO_DRIVE_CAP_MAX ≤ s
  · constructor
    · constructor
      · rintro ⟨d, hd, -⟩
        simp [GPIODriveStrength.make, isValidDriveStrengthPin, hs,
          ESP_OK, ESP_ERR_INVALID_ARG] at hd
      · intro h
        omega
    · intro _
      simp [GPIODriveStrength.make, isValidDriveStrengthPin, hs,
        ESP_OK, ESP_ERR_INVALID_ARG]
  · constructor
    · constructor
      · intro _
        omega
      · intro h
        exact ⟨⟨s⟩, driveStrength_make_ok P s h, rfl⟩
    · intro h
      omega

/-- Witness for C4 at the illustrative platform and code 3. -/
theorem claim_C4_drive_strength_validation_witness :
    (∃ d : GPIODriveStrength, GPIODriveStrength.make illustrativePlatform 3 = .ok d ∧ d.val = 3) ↔
      3 < illustrativePlatform.GPIO_DRIVE_CAP_MAX :=
  ((claim_C4_drive_strength_validation).1 illustrativePlatform 3 (by norm_num)).1

/-- C5: whenever the drive capability codes fit below the platform bound (as
they do on every supported target, where the bound is 4) the four drive
strength factories succeed with four pairwise distinct values and DEFAULT
equals MEDIUM; the three pull mode factories carry pairwise distinct codes,
as do the two wakeup interrupt type factories (those factories are total
functions, so they always succeed). -/
theorem claim_C5_named_factories_distinct :
    (∀ P : Platform, GPIO_DRIVE_CAP_3 < P.GPIO_DRIVE_CAP_MAX →
      GPIODriveStrength.WEAK P = .ok ⟨GPIO_DRIVE_CAP_0⟩ ∧
      GPIODriveStrength.LESS_WEAK P = .ok ⟨GPIO_DRIVE_CAP_1⟩ ∧
      GPIODriveStrength.MEDIUM P = .ok ⟨GPIO_DRIVE_CAP_2⟩ ∧
      GPIODriveStrength.STRONGEST P = .ok ⟨GPIO_DRIVE_CAP_3⟩ ∧
      GPIODriveStrength.DEFAULT P = GPIODriveStrength.MEDIUM P) ∧
    ((⟨GPIO_DRIVE_CAP_0⟩ : GPIODriveStrength) ≠ ⟨GPIO_DRIVE_CAP_1⟩ ∧
      (⟨GPIO_DRIVE_CAP_0⟩ : GPIODriveStrength) ≠ ⟨GPIO_DRIVE_CAP_2⟩ ∧
      (⟨GPIO_DRIVE_CAP_0⟩ : GPIODriveStrength) ≠ ⟨GPIO_DRIVE_CAP_3⟩ ∧
      (⟨GPIO_DRIVE_CAP_1⟩ : GPIODriveStrength) ≠ ⟨GPIO_DRIVE_CAP_2⟩ ∧
      (⟨GPIO_DRIVE_CAP_1⟩ : GPIODriveStrength) ≠ ⟨GPIO_DRIVE_CAP_3⟩ ∧
      (⟨GPIO_DRIVE_CAP_2⟩ : GPIODriveStrength) ≠ ⟨GPIO_DRIVE_CAP_3⟩) ∧
    (GPIOPullMode.FLOATING.get_value ≠ GPIOPullMode.PULLUP.get_value ∧
      GPIOPullMode.FLOATING.get_value ≠ GPIOPullMode.PULLDOWN.get_value ∧
      GPIOPullMode.PULLUP.get_value ≠ GPIOPullMode.PULLDOWN.get_value) ∧
    GPIOWakeupIntrType.LOW_LEVEL.get_value ≠ GPIOWakeupIntrType.HIGH_LEVEL.get_value := by
  refine ⟨?_, by decide, by decide, by decide⟩
  intro P h
  refine ⟨?_, ?_, ?_, ?_, rfl⟩
  · exact driveStrength_make_ok P GPIO_DRIVE_CAP_0 (by simp [GPIO_DRIVE_CAP_0, GPIO_DRIVE_CAP_3] at h ⊢; omega)
  · exact driveStrength_make_ok P GPIO_DRIVE_CAP_1 (by simp [GPIO_DRIVE_CAP_1, GPIO_DRIVE_CAP_3] at h ⊢; omega)
  · exact driveStrength_make_ok P GPIO_DRIVE_CAP_2 (by simp [GPIO_DRIVE_CAP_2, GPIO_DRIVE_CAP_3] at h ⊢; omega)
  · exact driveStrength_make_ok P GPIO_DRIVE_CAP_3 (by simp [GPIO_DRIVE_CAP_3] at h ⊢; omega)

/-- Witness for C5 at the illustrative platform. -/
theorem claim_C5_named_factories_distinct_witness :
    GPIODriveStrength.WEAK illustrativePlatform = .ok ⟨GPIO_DRIVE_CAP_0⟩ ∧
    GPIODriveStrength.LESS_WEAK illustrativePlatform = .ok ⟨GPIO_DRIVE_CAP_1⟩ ∧
    GPIODriveStrength.MEDIUM illustrativePlatform = .ok ⟨GPIO_DRIVE_CAP_2⟩ ∧
    GPIODriveStrength.STRONGEST illustrativePlatform = .ok ⟨GPIO_DRIVE_CAP_3⟩ ∧
    GPIODriveStrength.DEFAULT illustrativePlatform = GPIODriveStrength.MEDIUM illustrativePlatform :=
  (claim_C5_named_factories_distinct).1 illustrativePlatform (by decide)

/-- C7: invariant of the validated value types. A GPIONum or
GPIODriveStrength produced by its constructor stores exactly the input that
the validator accepted; every GPIOPullMode or GPIOWakeupIntrType instance
carries one of the closed set of factory codes; and the configuration
constructors pass the stored pin number through unchanged, so no operation
ever mutates it or rebuilds it through the validator. -/
theorem claim_C7_validated_value_invariant :
    (∀ (P : Platform) (p : Nat) (g : GPIONum),
      GPIONum.make P p = .ok g → g.val = p ∧ isValidPin P g.val = ESP_OK) ∧
    (∀ (P : Platform) (s : Nat) (d : GPIODriveStrength),
      GPIODriveStrength.make P s = .ok d →
        d.val = s ∧ isValidDriveStrengthPin P d.val = ESP_OK) ∧
    (∀ m : GPIOPullMode,
      m.get_value = GPIO_FLOATING ∨ m.get_value = GPIO_PULLUP_ONLY ∨
        m.get_value = GPIO_PULLDOWN_ONLY) ∧
    (∀ w : GPIOWakeupIntrType,
      w.get_value = GPIO_INTR_LOW_LEVEL ∨ w.get_value = GPIO_INTR_HIGH_LEVEL) ∧
    (∀ (D : Driver) (num : GPIONum) (o : PinOutput) (t : List DriverCall),
      PinOutput.construct D num = (.ok o, t) → o.gpio_num = num) ∧
    (∀ (D : Driver) (num : GPIONum) (i : PinInput) (t : List DriverCall),
      PinInput.construct D num = (.ok i, t) → i.gpio_num = num) ∧
    (∀ (D : Driver) (num : GPIONum) (oi : PinOutputInput) (t : List DriverCall),
      PinOutputInput.construct D num = (.ok oi, t) → oi.gpio_num = num) := by
  refine ⟨?_, ?_, ?_, ?_, ?_, ?_, ?_⟩
  · intro P p g hg
    by_cases hv : isValidPin P p = ESP_OK
    · have hgp : (⟨p⟩ : GPIONum) = g := by
        simpa [GPIONum.make, hv] using hg
      rw [← hgp]
      exact ⟨rfl, hv⟩
    · simp [GPIONum.make, hv] at hg
  · intro P s d hd
    by_cases hv : isValidDriveStrengthPin P s = ESP_OK
    · have hds : (⟨s⟩ : GPIODriveStrength) = d := by
        simpa [GPIODriveStrength.make, hv] using hd
      rw [← hds]
      exact ⟨rfl, hv⟩
    · simp [GPIODriveStrength.make, hv] at hd
  · intro m
    cases m <;> simp [GPIOPullMode.get_value]
  · intro w
    cases w <;> simp [GPIOWakeupIntrType.get_value]
  · intro D num o t h
    by_cases h1 : D.status (.gpio_reset_pin num.val) = ESP_OK
    · by_cases h2 : D.status (.gpio_set_direction num.val .GPIO_MODE_OUTPUT) = ESP_OK
      · simp [PinOutput.construct, GPIOBase.construct, h1, h2] at h
        rw [← h.1]
      · simp [PinOutput.construct, GPIOBase.construct, h1, h2] at h
    · simp [PinOutput.construct, GPIOBase.construct, h1] at h
  · intro D num i t h
    by_cases h1 : D.status (.gpio_reset_pin num.val) = ESP_OK
    · by_cases h2 : D.status (.gpio_set_direction num.val .GPIO_MODE_INPUT) = ESP_OK
      · simp [PinInput.construct, GPIOBase.construct, h1, h2] at h
        rw [← h.1]
      · simp [PinInput.construct, GPIOBase.construct, h1, h2] at h
    · simp [PinInput.construct, GPIOBase.construct, h1] at h
  · intro D num oi t h
    by_cases h1 : D.status (.gpio_reset_pin num.val) = ESP_OK
    · by_cases h2 : D.status (.gpio_set_direction num.val .GPIO_MODE_INPUT) = ESP_OK
      · by_cases h3 : D.status (.gpio_set_direction num.val .GPIO_MODE_INPUT_OUTPUT_OD) = ESP_OK
        · simp [PinOutputInput.construct, PinInput.construct, GPIOBase.construct,
            h1, h2, h3] at h
          rw [← h.1]
        · simp [PinOutputInput.construct, PinInput.construct, GPIOBase.construct,
            h1, h2, h3] at h
      · simp [PinOutputInput.construct, PinInput.construct, GPIOBase.construct, h1, h2] at h
    · simp [PinOutputInput.construct, PinInput.construct, GPIOBase.construct, h1] at h

/-- Witness for C7 at the illustrative platform, pin 3. -/
theorem claim_C7_validated_value_invariant_witness :
    (⟨3⟩ : GPIONum).val = 3 ∧ isValidPin illustrativePlatform (⟨3⟩ : GPIONum).val = ESP_OK :=
  (claim_C7_validated_value_invariant).1 illustrativePlatform 3 ⟨3⟩ rfl

/-- C2: each configuration constructor first issues exactly one reset call
and then programs the direction; whichever of those calls first reports a
non-success status makes construction stop there and fail with an error
carrying that status, producing no object; when every call succeeds the
object is produced after the full call sequence. For PinOutputInput the
direction programming consists of the inherited input call followed by the
open drain call. -/
theorem claim_C2_reset_then_direction_atomic (D : Driver) (num : GPIONum) :
    (D.status (.gpio_reset_pin num.val) ≠ ESP_OK →
      PinOutput.construct D num =
        (.error ⟨D.status (.gpio_reset_pin num.val)⟩, [.gpio_reset_pin num.val]) ∧
      PinInput.construct D num =
        (.error ⟨D.status (.gpio_reset_pin num.val)⟩, [.gpio_reset_pin num.val]) ∧
      PinOutputInput.construct D num =
        (.error ⟨D.status (.gpio_reset_pin num.val)⟩, [.gpio_reset_pin num.val])) ∧
    (D.status (.gpio_reset_pin num.val) = ESP_OK →
      (D.status (.gpio_set_direction num.val .GPIO_MODE_OUTPUT) ≠ ESP_OK →
        PinOutput.construct D num =
          (.error ⟨D.status (.gpio_set_direction num.val .GPIO_MODE_OUTPUT)⟩,
            [.gpio_reset_pin num.val, .gpio_set_direction num.val .GPIO_MODE_OUTPUT])) ∧
      (D.status (.gpio_set_direction num.val .GPIO_MODE_OUTPUT) = ESP_OK →
        PinOutput.construct D num =
          (.ok ⟨⟨num⟩⟩,
            [.gpio_reset_pin num.val, .gpio_set_direction num.val .GPIO_MODE_OUTPUT])) ∧
      (D.status (.gpio_set_direction num.val .GPIO_MODE_INPUT) ≠ ESP_OK →
        PinInput.construct D num =
          (.error ⟨D.status (.gpio_set_direction num.val .GPIO_MODE_INPUT)⟩,
            [.gpio_reset_pin num.val, .gpio_set_direction num.val .GPIO_MODE_INPUT]) ∧
        PinOutputInput.construct D num =
          (.error ⟨D.status (.gpio_set_direction num.val .GPIO_MODE_INPUT)⟩,
            [.gpio_reset_pin num.val, .gpio_set_direction num.val .GPIO_MODE_INPUT])) ∧
      (D.status (.gpio_set_direction num.val .GPIO_MODE_INPUT) = ESP_OK →
        PinInput.construct D num =
          (.ok ⟨⟨num⟩⟩,
            [.gpio_reset_pin num.val, .gpio_set_direction num.val .GPIO_MODE_INPUT]) ∧
        (D.status (.gpio_set_direction num.val .GPIO_MODE_INPUT_OUTPUT_OD) ≠ ESP_OK →
          PinOutputInput.construct D num =
            (.error ⟨D.status (.gpio_set_direction num.val .GPIO_MODE_INPUT_OUTPUT_OD)⟩,
              [.gpio_reset_pin num.val, .gpio_set_direction num.val .GPIO_MODE_INPUT,
                .gpio_set_direction num.val .GPIO_MODE_INPUT_OUTPUT_OD])) ∧
        (D.status (.gpio_set_direction num.val .GPIO_MODE_INPUT_OUTPUT_OD) = ESP_OK →
          PinOutputInput.construct D num =
            (.ok ⟨⟨⟨num⟩⟩⟩,
              [.gpio_reset_pin num.val, .gpio_set_direction num.val .GPIO_MODE_INPUT,
                .gpio_set_direction num.val .GPIO_MODE_INPUT_OUTPUT_OD])))) := by
  constructor
  · intro h1
    refine ⟨?_, ?_, ?_⟩ <;>
      simp [PinOutput.construct, PinInput.construct, PinOutputInput.construct,
        GPIOBase.construct, h1]
  · intro h1
    refine ⟨?_, ?_, ?_, ?_⟩
    · intro h2
      simp [PinOutput.construct, GPIOBase.construct, h1, h2]
    · intro h2
      simp [PinOutput.construct, GPIOBase.construct, h1, h2]
    · intro h2
      constructor <;>
        simp [PinInput.construct, PinOutputInput.construct, GPIOBase.construct, h1, h2]
    · intro h2
      refine ⟨?_, ?_, ?_⟩
      · simp [PinInput.construct, GPIOBase.construct, h1, h2]
      · intro h3
        simp [PinOutputInput.construct, PinInput.construct, GPIOBase.construct, h1, h2, h3]
      · intro h3
        simp [PinOutputInput.construct, PinInput.construct, GPIOBase.construct, h1, h2, h3]

/-- Witness for C2: the all-success case of the PinOutput constructor under
the all-success driver at pin 5. -/
theorem claim_C2_reset_then_direction_atomic_witness :
    PinOutput.construct okDriver ⟨5⟩ =
      (.ok ⟨⟨⟨5⟩⟩⟩, [.gpio_reset_pin 5, .gpio_set_direction 5 .GPIO_MODE_OUTPUT]) :=
  ((claim_C2_reset_then_direction_atomic okDriver ⟨5⟩).2 rfl).2.1 rfl

/-- C3: a pin number that is out of range or reserved on the active target is
rejected by the GPIONum validation inside every configuration construction
pipeline, with an InvalidArgument error and an empty driver call trace, so
construction fails before any driver call and without side effects. -/
theorem claim_C3_reserved_pin_rejected_before_driver (P : Platform) (D : Driver) (p : Nat)
    (h : P.GPIO_NUM_MAX ≤ p ∨ p ∈ P.INVALID_GPIOS) :
    PinOutput.constructRaw P D p = (.error ⟨ESP_ERR_INVALID_ARG⟩, []) ∧
    PinInput.constructRaw P D p = (.error ⟨ESP_ERR_INVALID_ARG⟩, []) ∧
    PinOutputInput.constructRaw P D p = (.error ⟨ESP_ERR_INVALID_ARG⟩, []) := by
  have hmake : GPIONum.make P p = .error ⟨ESP_ERR_INVALID_ARG⟩ := by
    rcases h with h | h
    · simp [GPIONum.make, isValidPin, h, ESP_OK, ESP_ERR_INVALID_ARG]
    · by_cases hm : P.GPIO_NUM_MAX ≤ p <;>
        simp [GPIONum.make, isValidPin, h, hm, ESP_OK, ESP_ERR_INVALID_ARG]
  refine ⟨?_, ?_, ?_⟩ <;>
    simp [PinOutput.constructRaw, PinInput.constructRaw, PinOutputInput.constructRaw, hmake]

/-- Witness for C3: the reserved pin 24 of the illustrative platform. -/
theorem claim_C3_reserved_pin_rejected_before_driver_witness :
    PinOutput.constructRaw illustrativePlatform okDriver 24 =
      (.error ⟨ESP_ERR_INVALID_ARG⟩, []) :=
  (claim_C3_reserved_pin_rejected_before_driver illustrativePlatform okDriver 24
    (Or.inr (by decide))).1

/-- C6: on a PinInput obtained from a successful construction over a valid
pin, getLevel is a total function whose result is HIGH or LOW, whatever
level the driver reports; it cannot fail. -/
theorem claim_C6_getLevel_never_fails (P : Platform) (Dc Dr : Driver) (p : Nat)
    (i : PinInput) (t : List DriverCall)
    (h : PinInput.constructRaw P Dc p = (.ok i, t)) :
    PinInput.getLevel Dr i = GPIOLevel.HIGH ∨ PinInput.getLevel Dr i = GPIOLevel.LOW := by
  unfold PinInput.getLevel
  by_cases hl : Dr.get_level i.gpio_num.val ≠ 0
  · exact Or.inl (by simp [hl])
  · exact Or.inr (by simp [hl])

/-- Witness for C6: pin 3 on the illustrative platform with the all-success
driver. -/
theorem claim_C6_getLevel_never_fails_witness :
    PinInput.getLevel okDriver ⟨⟨⟨3⟩⟩⟩ = GPIOLevel.HIGH ∨
      PinInput.getLevel okDriver ⟨⟨⟨3⟩⟩⟩ = GPIOLevel.LOW :=
  claim_C6_getLevel_never_fails illustrativePlatform okDriver okDriver 3 ⟨⟨⟨3⟩⟩⟩
    [.gpio_reset_pin 3, .gpio_set_direction 3 .GPIO_MODE_INPUT] rfl

/-- C8: on the same pin number, PinOutputInput::setFloating and
PinOutput::setHigh issue exactly the same driver call, gpio_set_level with
value 1, and therefore have identical results and identical traces under
every driver. -/
theorem claim_C8_setFloating_equals_setHigh (D : Driver)
    (oi : PinOutputInput) (o : PinOutput) (h : oi.gpio_num = o.gpio_num) :
    PinOutputInput.setFloating D oi = PinOutput.setHigh D o := by
  unfold PinOutputInput.setFloating PinOutput.setHigh
  rw [h]

/-- Witness for C8 at pin 5. -/
theorem claim_C8_setFloating_equals_setHigh_witness :
    PinOutputInput.setFloating okDriver ⟨⟨⟨⟨5⟩⟩⟩⟩ = PinOutput.setHigh okDriver ⟨⟨⟨5⟩⟩⟩ :=
  claim_C8_setFloating_equals_setHigh okDriver ⟨⟨⟨⟨5⟩⟩⟩⟩ ⟨⟨⟨5⟩⟩⟩ rfl

/-- C9: getDriveStrength rebuilds the code read back from the driver through
the validating GPIODriveStrength constructor: when the driver call succeeds
but reports a code at or above the platform bound the method fails with an
InvalidArgument GPIOException, and a successful result always holds a code
strictly below the bound. -/
theorem claim_C9_getDriveStrength_revalidates (P : Platform) (D : Driver) (o : GPIOBase) :
    (D.status (.gpio_get_drive_capability o.gpio_num.val) = ESP_OK →
      P.GPIO_DRIVE_CAP_MAX ≤ D.drive_cap o.gpio_num.val →
      GPIOBase.getDriveStrength P D o =
        (.error ⟨ESP_ERR_INVALID_ARG⟩, [.gpio_get_drive_capability o.gpio_num.val])) ∧
    (∀ (d : GPIODriveStrength) (t : List DriverCall),
      GPIOBase.getDriveStrength P D o = (.ok d, t) → d.val < P.GPIO_DRIVE_CAP_MAX) := by
  constructor
  · intro hs hcap
    simp [GPIOBase.getDriveStrength, GPIODriveStrength.make, isValidDriveStrengthPin,
      hs, hcap, ESP_OK, ESP_ERR_INVALID_ARG]
  · intro d t h
    by_cases hs : D.status (.gpio_get_drive_capability o.gpio_num.val) = ESP_OK
    · by_cases hcap : P.GPIO_DRIVE_CAP_MAX ≤ D.drive_cap o.gpio_num.val
      · simp [GPIOBase.getDriveStrength, GPIODriveStrength.make, isValidDriveStrengthPin,
          hs, hcap, ESP_OK, ESP_ERR_INVALID_ARG] at h
      · have hd : (⟨D.drive_cap o.gpio_num.val⟩ : GPIODriveStrength) = d :=
          (by simpa [GPIOBase.getDriveStrength, GPIODriveStrength.make,
            isValidDriveStrengthPin, hs, hcap, ESP_OK, ESP_ERR_INVALID_ARG] using h :
            (⟨D.drive_cap o.gpio_num.val⟩ : GPIODriveStrength) = d ∧
              [DriverCall.gpio_get_drive_capability o.gpio_num.val] = t).1
        rw [← hd]
        simpa using Nat.lt_of_not_le hcap
    · simp [GPIOBase.getDriveStrength, hs] at h

/-- Witness for C9: the driver whose readback code 7 exceeds the illustrative
bound 4 makes getDriveStrength fail although the driver call succeeded. -/
theorem claim_C9_getDriveStrength_revalidates_witness :
    GPIOBase.getDriveStrength illustrativePlatform capDriver ⟨⟨3⟩⟩ =
      (.error ⟨ESP_ERR_INVALID_ARG⟩, [.gpio_get_drive_capability 3]) :=
  (claim_C9_getDriveStrength_revalidates illustrativePlatform capDriver ⟨⟨3⟩⟩).1
    rfl (by decide)

/-- C10: when every driver call succeeds, constructing a PinOutputInput
issues exactly three calls in order: reset, direction to input (inherited
from the PinInput constructor), then direction to combined input and output
open drain; the trace exhibits the intermediate input configuration between
the second and third call. -/
theorem claim_C10_outputinput_call_sequence (D : Driver) (num : GPIONum)
    (h1 : D.status (.gpio_reset_pin num.val) = ESP_OK)
    (h2 : D.status (.gpio_set_direction num.val .GPIO_MODE_INPUT) = ESP_OK)
    (h3 : D.status (.gpio_set_direction num.val .GPIO_MODE_INPUT_OUTPUT_OD) = ESP_OK) :
    PinOutputInput.construct D num =
      (.ok ⟨⟨⟨num⟩⟩⟩,
        [.gpio_reset_pin num.val,
          .gpio_set_direction num.val .GPIO_MODE_INPUT,
          .gpio_set_direction num.val .GPIO_MODE_INPUT_OUTPUT_OD]) := by
  simp [PinOutputInput.construct, PinInput.construct, GPIOBase.construct, h1, h2, h3]

/-- Witness for C10 at pin 7 under the all-success driver. -/
theorem claim_C10_outputinput_call_sequence_witness :
    PinOutputInput.construct okDriver ⟨7⟩ =
      (.ok ⟨⟨⟨⟨7⟩⟩⟩⟩,
        [.gpio_reset_pin 7,
          .gpio_set_direction 7 .GPIO_MODE_INPUT,
          .gpio_set_direction 7 .GPIO_MODE_INPUT_OUTPUT_OD]) :=
  claim_C10_outputinput_call_sequence okDriver ⟨7⟩ rfl rfl rfl

end IdfGpio
